import Mathlib

/-!
Shallow embedding of the goker MQTT v5 broker core (Go sources):
the primitive codec (internal/protocol/packet.go, bytes.Buffer variant),
the fixed header, the CONNECT/CONNACK and PUBLISH decode paths
(internal/protocol mqtt source), and the packet-level test driver.

Byte buffers are modelled after Go's bytes.Buffer: the backing byte
list plus the read offset.  Every decoder returns the decoded value
together with the advanced buffer.  Go `bytes.Buffer.Read(p)` fills
`p` with up to `len(p)` bytes and returns the error `io.EOF` only when
the buffer is empty and `len(p)` is positive; a partial read leaves
the tail of `p` at its zero value and reports no error.  `bufRead`
reproduces exactly that contract.
-/

namespace Goker

structure Buf where
  data : List Nat
  off : Nat
deriving DecidableEq

def Buf.ofList (l : List Nat) : Buf := { data := l, off := 0 }

/-- Buffer.Len: the number of unread bytes. -/
def Buf.len (r : Buf) : Nat := r.data.length - r.off

/-- Buffer.Bytes: the unread bytes. -/
def Buf.bytes (r : Buf) : List Nat := r.data.drop r.off

/-- Buffer.Next n / the offset advance of a read: the offset moves by
n, capped at the end of the data. -/
def Buf.next (r : Buf) (n : Nat) : Buf :=
  { data := r.data, off := min (r.off + n) r.data.length }

/-- Buffer.ReadByte. -/
def Buf.readByte (r : Buf) : Option (Nat × Buf) :=
  match r.bytes with
  | [] => none
  | b :: _ => some (b, r.next 1)

/-- Buffer.Read into a k-byte zeroed slice. -/
def bufRead (k : Nat) (r : Buf) : Option (List Nat × Buf) :=
  if r.len = 0 ∧ 0 < k then none
  else some (r.bytes.take k ++ List.replicate (k - r.len) 0, r.next k)

/-- VarByteInt.decode loop: a byte is read first, then the multiplier
bound is checked, exactly as in the Go loop.  The multiplier exceeds
128^3 on the fifth pass at the latest, so fuel 5 covers every run and
the exhausted-fuel error is unreachable. -/
def vbiDecodeAux : Nat → Nat → Nat → Buf → Except String (Nat × Buf)
  | fuel, mult, x, r =>
    match Buf.readByte r with
    | none => .error "Unable to decode Variable Byte Integer"
    | some (b, r1) =>
      if 128 * 128 * 128 < mult then
        .error "Unable to decode Variable Byte Integer"
      else if b &&& 128 = 0 then .ok (x + (b &&& 127) * mult, r1)
      else
        match fuel with
        | 0 => .error "Unable to decode Variable Byte Integer"
        | f + 1 => vbiDecodeAux f (mult * 128) (x + (b &&& 127) * mult) r1

def VarByteInt.decode (r : Buf) : Except String (Nat × Buf) :=
  vbiDecodeAux 5 1 0 r

/-- The Go encoder keeps a single `encodedByte` variable that each loop
pass overwrites (the continuation-bit assignment is discarded by the
next pass), so only the final 7-bit group survives.  The fuel argument
is a termination device; the division chain reaches zero long before
the fuel does. -/
def vbiEncodeLastByte : Nat → Nat → Nat
  | 0, v => v % 128
  | fuel + 1, v => if 0 < v / 128 then vbiEncodeLastByte fuel (v / 128) else v % 128

/-- bytes.Trim(b, zero byte): drop zero bytes from both ends. -/
def bytesTrim (l : List Nat) : List Nat :=
  ((l.dropWhile (· == 0)).reverse.dropWhile (· == 0)).reverse

/-- VarByteInt.encode: binary.BigEndian.PutUint32 of the surviving
`encodedByte` (always below 128) gives three leading zero bytes, then
bytes.Trim removes every zero byte at either end. -/
def VarByteInt.encode (v : Nat) : List Nat :=
  bytesTrim [0, 0, 0, vbiEncodeLastByte v v]

/-- Go unicode/utf8 DecodeRune: yields (rune, size); on malformed input
it yields (RuneError = 0xFFFD, 1), on an empty slice (0xFFFD, 0). -/
def utf8DecodeRune : List Nat → Nat × Nat
  | [] => (0xFFFD, 0)
  | b0 :: rest =>
    if b0 < 0x80 then (b0, 1)
    else if b0 < 0xC2 ∨ 0xF4 < b0 then (0xFFFD, 1)
    else if b0 < 0xE0 then
      match rest with
      | b1 :: _ =>
        if 0x80 ≤ b1 ∧ b1 ≤ 0xBF then ((b0 &&& 0x1F) <<< 6 ||| (b1 &&& 0x3F), 2)
        else (0xFFFD, 1)
      | _ => (0xFFFD, 1)
    else if b0 < 0xF0 then
      match rest with
      | b1 :: b2 :: _ =>
        if (if b0 = 0xE0 then 0xA0 else 0x80) ≤ b1 ∧
            b1 ≤ (if b0 = 0xED then 0x9F else 0xBF) ∧
            0x80 ≤ b2 ∧ b2 ≤ 0xBF then
          ((b0 &&& 0xF) <<< 12 ||| (b1 &&& 0x3F) <<< 6 ||| (b2 &&& 0x3F), 3)
        else (0xFFFD, 1)
      | _ => (0xFFFD, 1)
    else
      match rest with
      | b1 :: b2 :: b3 :: _ =>
        if (if b0 = 0xF0 then 0x90 else 0x80) ≤ b1 ∧
            b1 ≤ (if b0 = 0xF4 then 0x8F else 0xBF) ∧
            0x80 ≤ b2 ∧ b2 ≤ 0xBF ∧ 0x80 ≤ b3 ∧ b3 ≤ 0xBF then
          ((b0 &&& 0x7) <<< 18 ||| (b1 &&& 0x3F) <<< 12 |||
            (b2 &&& 0x3F) <<< 6 ||| (b3 &&& 0x3F), 4)
        else (0xFFFD, 1)
      | _ => (0xFFFD, 1)

/-- Go unicode/utf8 Valid, expressed through DecodeRune: a slice is
valid when repeated decoding never produces (RuneError, size ≤ 1).
The fuel equals the list length; every pass drops at least one byte. -/
def utf8ValidAux : Nat → List Nat → Bool
  | _, [] => true
  | 0, _ => false
  | fuel + 1, l =>
    let rs := utf8DecodeRune l
    if rs.1 = 0xFFFD ∧ rs.2 ≤ 1 then false
    else utf8ValidAux fuel (l.drop rs.2)

def utf8Valid (l : List Nat) : Bool := utf8ValidAux l.length l

/-- UTF8String.decode rune loop.  The Go loop spins forever when
DecodeRune yields RuneError (it continues without advancing); that
branch burns fuel and the exhausted-fuel error is unreachable after
the validity check that guards the loop. -/
def utf8RuneLoop : Nat → Nat → Nat → List Nat → Buf →
    Except String (List Nat × Buf)
  | fuel, slen, consumed, acc, r =>
    if slen ≤ consumed then .ok (acc, r)
    else
      match fuel with
      | 0 => .error "rune loop stuck"
      | f + 1 =>
        let rs := utf8DecodeRune r.bytes
        if rs.1 = 0xFFFD then utf8RuneLoop f slen consumed acc r
        else utf8RuneLoop f slen (consumed + rs.2) (acc ++ [rs.1]) (r.next rs.2)

/-- UTF8String.decode (bytes.Buffer variant).  The decoded value is the
list of rune values the Go code appends to the string.  Note that the
validity check inspects every remaining buffered byte, not only the
`slen` bytes that belong to the string. -/
def UTF8String.decode (r : Buf) : Except String (List Nat × Buf) :=
  match bufRead 2 r with
  | none => .error "Unable to decode UTF-8 string."
  | some (b, r1) =>
    let slen := b.getD 0 0 * 256 + b.getD 1 0
    if slen = 0 then .ok ([], r1)
    else if r1.len < slen then .error "UTF-8 string does not match set length."
    else if ¬ utf8Valid r1.bytes then .error "UTF-8 string is not valid utf-8."
    else utf8RuneLoop (slen + 1) slen 0 [] r1

structure UTF8StringPair where
  key : List Nat
  value : List Nat
deriving DecidableEq

def UTF8StringPair.decode (r : Buf) :
    Except String (UTF8StringPair × Buf) :=
  match UTF8String.decode r with
  | .error e => .error ("Unable to decode key in UTF-8 string pair, err:" ++ e)
  | .ok (k, r1) =>
    match UTF8String.decode r1 with
    | .error e => .error ("Unable to decode value in UTF-8 string pair, err:" ++ e)
    | .ok (v, r2) => .ok ({ key := k, value := v }, r2)

def BinaryData.decode (r : Buf) : Except String (List Nat × Buf) :=
  match bufRead 2 r with
  | none => .error "Unable to decode BinaryData."
  | some (b, r1) =>
    let vLen := b.getD 0 0 * 256 + b.getD 1 0
    match bufRead vLen r1 with
    | none => .error "Unable to decode BinaryData."
    | some (v, r2) => .ok (v, r2)

/-- ByteInteger.decode (bytes.Buffer variant): the Go guard is
`err != nil || b[0] >= 1`. -/
def ByteInteger.decode (r : Buf) : Except String (Bool × Buf) :=
  match bufRead 1 r with
  | none => .error "Unable to decode Byte Integer."
  | some (b, r1) =>
    if 1 ≤ b.getD 0 0 then .error "Unable to decode Byte Integer."
    else .ok (b.getD 0 0 == 1, r1)

def ByteInteger.encode (v : Bool) : List Nat := if v then [1] else [0]

def TwoByteInteger.decode (r : Buf) : Except String (Nat × Buf) :=
  match bufRead 2 r with
  | none => .error "Unable to decode Two Byte Integer."
  | some (b, r1) => .ok (b.getD 0 0 * 256 + b.getD 1 0, r1)

def FourByteInteger.decode (r : Buf) : Except String (Nat × Buf) :=
  match bufRead 4 r with
  | none => .error "Unable to decode Two Byte Integer."
  | some (b, r1) =>
    .ok (b.getD 0 0 * 16777216 + b.getD 1 0 * 65536 +
          b.getD 2 0 * 256 + b.getD 3 0, r1)

/-! Fixed header and control types (mqtt source). -/

def RESERVED : Nat := 0
def CONNECT : Nat := 1
def CONNACK : Nat := 2
def PUBLISH : Nat := 3
def COUNT : Nat := 16

def CType.encode (t : Nat) : List Nat := [(t <<< 4) &&& 255]

/-- CType.decode reads one byte and unreads it, so the buffer is left
untouched: a peek. -/
def CType.decode (r : Buf) : Except String Nat :=
  match r.bytes with
  | [] => .error "Missing packet type in header."
  | b :: _ =>
    let t := (b >>> 4) &&& 0b0001111
    if t ≤ RESERVED ∨ COUNT ≤ t then .error "Unknowned MQTT Control Packet type!"
    else .ok t

structure Flag where
  dup : Bool
  qos : Nat
  retain : Bool
deriving DecidableEq

/-- Flag.encode: the retain bit is written from f.dup in the source
(both `if f.dup` branches), reproduced here. -/
def Flag.encode (f : Flag) : List Nat :=
  [(if f.dup then 0b1000 else 0) ||| ((f.qos <<< 1) &&& 0b0110) |||
    (if f.dup then 0b0001 else 0)]

/-- Flag.decode reads one byte and unreads it: a peek. -/
def Flag.decode (r : Buf) : Except String Flag :=
  match r.bytes with
  | [] => .error "Missing flag in header."
  | b :: _ =>
    .ok { dup := b &&& 0b1000 != 0, qos := (b &&& 0b0110) >>> 1,
          retain := b &&& 0b0001 != 0 }

structure MqttHeader where
  ctl : Nat
  flag : Flag
  len : Nat
deriving DecidableEq

def MqttHeader.encode (h : MqttHeader) : List Nat :=
  ((CType.encode h.ctl).getD 0 0 ||| (Flag.encode h.flag).getD 0 0) ::
    VarByteInt.encode h.len

/-- ParseHeader.  On a remaining-length decode failure the source
returns `nil, err` where `err` still holds the earlier nil value, so
the caller sees neither a header nor an error; that outcome is the
`(none, _)` case. -/
def ParseHeader (r : Buf) : Except String (Option MqttHeader × Buf) :=
  match CType.decode r with
  | .error e => .error ("Malformed Fixed Header, err:" ++ e)
  | .ok ctl =>
    match Flag.decode r with
    | .error e => .error ("Malformed Fixed Header, err:" ++ e)
    | .ok flag =>
      let r1 := r.next 1
      match VarByteInt.decode r1 with
      | .error _ => .ok (none, r1)
      | .ok (len, r2) => .ok (some { ctl := ctl, flag := flag, len := len }, r2)

/-! QoS and connect flags. -/

def QoS0 : Nat := 0
def QoS1 : Nat := 1
def QoS2 : Nat := 2
def QoS3 : Nat := 3

def QoS.maxQos (_qos : Nat) : Nat := QoS0

def QoS.isSupported (qos : Nat) : Bool := decide (qos ≤ QoS.maxQos qos)

def ConnectFlag.username (f : Nat) : Bool := f &&& 0b10000000 != 0
def ConnectFlag.password (f : Nat) : Bool := f &&& 0b00100000 != 0
def ConnectFlag.retain (f : Nat) : Bool := f &&& 0b00010000 != 0
/-- ConnectFlag.qos masks bits 3 and 4 without shifting them, exactly
as the source does, so the result ranges over 0, 8, 16, 24. -/
def ConnectFlag.qos (f : Nat) : Nat := f &&& 0b00011000
def ConnectFlag.will (f : Nat) : Bool := f &&& 0b00000100 != 0
def ConnectFlag.cleanstart (f : Nat) : Bool := f &&& 0b00000010 != 0
def ConnectFlag.reservered (f : Nat) : Bool := f &&& 0b00000001 != 0

def ConnectFlag.valid (f : Nat) : Option String :=
  if ConnectFlag.reservered f then some "Reserved flag must be 0."
  else if QoS3 ≤ ConnectFlag.qos f then some "Invalid QoS"
  else if ConnectFlag.will f && (ConnectFlag.qos f != QoS0) then
    some "Invalid QoS while will flag is set."
  else none

/-! Property identifiers. -/

def SessionExpiryInterval : Nat := 0x11
def ReceiveMaximum : Nat := 0x21
def MaximumPacketSize : Nat := 0x27
def TopicAliasMaximum : Nat := 0x22
def RequestResponseInformation : Nat := 0x19
def RequestProblemInformation : Nat := 0x17
def UserProperty : Nat := 0x26
def AuthenticationMethod : Nat := 0x15
def AuthenticationData : Nat := 0x16
def WillDelayInterval : Nat := 0x18
def PayloadFormatIndicator : Nat := 0x01
def MessageExpiryInterval : Nat := 0x02
def ContentType : Nat := 0x03
def ResponseTopic : Nat := 0x08
def CorrelationData : Nat := 0x09
def MaximumQoS : Nat := 0x24
def RetainAvailable : Nat := 0x25
def WildcardSubscriptionAvailable : Nat := 0x28
def SubscriptionIdentifiersAvailable : Nat := 0x29
def SharedSubscriptionAvailable : Nat := 0x2A
def TopicAlias : Nat := 0x23
def SubscriptionIdentifier : Nat := 0x0B

/-! Connect properties.  The embedded PacketProperties map of already
seen identifiers becomes the `fields` list; Go map lookup on a missing
key yields false, list membership models it. -/

structure ConnectProperties where
  fields : List Nat
  sessionExpiryInterval : Nat
  receiveMaximum : Nat
  maximumPacketSize : Nat
  topicAliasMaximum : Nat
  requestResponseInfo : Bool
  requestProblemInfo : Bool
  userProperty : UTF8StringPair
  authenticationMethod : List Nat
  authenticationData : List Nat
deriving DecidableEq

/-- Field values assigned at the top of ConnectProperties.decode, plus
Go zero values for the slots the decode prologue leaves untouched.
Durations are stored as their second counts. -/
def ConnectProperties.init : ConnectProperties :=
  { fields := [], sessionExpiryInterval := 0, receiveMaximum := 65535,
    maximumPacketSize := 4294967295, topicAliasMaximum := 0,
    requestResponseInfo := false, requestProblemInfo := true,
    userProperty := { key := [], value := [] },
    authenticationMethod := [], authenticationData := [] }

/-- Loop body of ConnectProperties.decode.  `remain` is the buffer
length recorded before the loop; the loop runs while
`remain - r.Len() < propLen`.  Each pass consumes at least the
identifier byte against that budget, so fuel propLen + 1 covers every
run and the exhausted-fuel error is unreachable.  Note the duplicate
test is applied to every identifier, the user property included, and
note the RequestResponseInformation case stores into
requestProblemInfo, as the source does. -/
def connectPropsLoop : Nat → Nat → Nat → ConnectProperties → Buf →
    Except String (ConnectProperties × Buf)
  | fuel, propLen, remain, p, l =>
    if propLen ≤ remain - l.len then .ok (p, l)
    else
      match fuel with
      | 0 => .error "property loop stuck"
      | f + 1 =>
        match l.readByte with
        | none => .error "EOF"
        | some (b, rest) =>
          if p.fields.contains b then .error "Duplicate connect property"
          else
            let p := { p with fields := b :: p.fields }
            if b = SessionExpiryInterval then
              match FourByteInteger.decode rest with
              | .error e => .error ("Invalid Session Expiry Interval, err:" ++ e)
              | .ok (d, r2) =>
                connectPropsLoop f propLen remain
                  { p with sessionExpiryInterval := d } r2
            else if b = ReceiveMaximum then
              match TwoByteInteger.decode rest with
              | .error e => .error ("Invalid Receive Maximum, err:" ++ e)
              | .ok (d, r2) =>
                connectPropsLoop f propLen remain { p with receiveMaximum := d } r2
            else if b = MaximumPacketSize then
              match FourByteInteger.decode rest with
              | .error e => .error ("Invalid Maximum Packet Size, err:" ++ e)
              | .ok (d, r2) =>
                connectPropsLoop f propLen remain
                  { p with maximumPacketSize := d } r2
            else if b = TopicAliasMaximum then
              match TwoByteInteger.decode rest with
              | .error _ => .error "Invalid Topic Alias Maximum"
              | .ok (d, r2) =>
                connectPropsLoop f propLen remain
                  { p with topicAliasMaximum := d } r2
            else if b = RequestResponseInformation then
              match ByteInteger.decode rest with
              | .error e => .error ("Invalid Request Response Information, err:" ++ e)
              | .ok (d, r2) =>
                connectPropsLoop f propLen remain
                  { p with requestProblemInfo := d } r2
            else if b = RequestProblemInformation then
              match ByteInteger.decode rest with
              | .error e => .error ("Invalid Request Problem Information, err:" ++ e)
              | .ok (d, r2) =>
                connectPropsLoop f propLen remain
                  { p with requestProblemInfo := d } r2
            else if b = UserProperty then
              match UTF8StringPair.decode rest with
              | .error e => .error ("Invalid User Property, err:" ++ e)
              | .ok (d, r2) =>
                connectPropsLoop f propLen remain { p with userProperty := d } r2
            else if b = AuthenticationMethod then
              match UTF8String.decode rest with
              | .error e => .error ("Invalid Authentication Method" ++ e)
              | .ok (d, r2) =>
                connectPropsLoop f propLen remain
                  { p with authenticationMethod := d } r2
            else if b = AuthenticationData then
              match BinaryData.decode rest with
              | .error e => .error ("Invalid Authentication Data" ++ e)
              | .ok (d, r2) =>
                connectPropsLoop f propLen remain
                  { p with authenticationData := d } r2
            else .error "Unknown connect packet property"

def ConnectProperties.decode (r : Buf) :
    Except String (ConnectProperties × Buf) :=
  match VarByteInt.decode r with
  | .error e => .error e
  | .ok (propLen, r1) =>
    if r1.len < propLen then .error "Invalid Conenct Property Length."
    else if propLen = 0 then .ok (ConnectProperties.init, r1)
    else connectPropsLoop (propLen + 1) propLen r1.len ConnectProperties.init r1

/-! Will properties. -/

structure WillProperties where
  delayInterval : Nat
  payloadFormatIndicator : Bool
  messageExpiryInterval : Nat
  contentType : List Nat
  responseTopic : List Nat
  correlationData : List Nat
  userProperty : UTF8StringPair
deriving DecidableEq

def WillProperties.init : WillProperties :=
  { delayInterval := 0, payloadFormatIndicator := false,
    messageExpiryInterval := 0, contentType := [], responseTopic := [],
    correlationData := [], userProperty := { key := [], value := [] } }

/-- Loop body of WillProperties.decode; the source keeps no seen-field
map here, so duplicates are not rejected. -/
def willPropsLoop : Nat → Nat → Nat → WillProperties → Buf →
    Except String (WillProperties × Buf)
  | fuel, propLen, remain, p, l =>
    if propLen ≤ remain - l.len then .ok (p, l)
    else
      match fuel with
      | 0 => .error "property loop stuck"
      | f + 1 =>
        match l.readByte with
        | none => .error "EOF"
        | some (b, rest) =>
          if b = WillDelayInterval then
            match FourByteInteger.decode rest with
            | .error e => .error ("Invalid Will Delay Interval, err:" ++ e)
            | .ok (d, r2) =>
              willPropsLoop f propLen remain { p with delayInterval := d } r2
          else if b = PayloadFormatIndicator then
            match ByteInteger.decode rest with
            | .error e => .error ("Invalid Payload Format Indicator, err:" ++ e)
            | .ok (d, r2) =>
              willPropsLoop f propLen remain
                { p with payloadFormatIndicator := d } r2
          else if b = MessageExpiryInterval then
            match FourByteInteger.decode rest with
            | .error e =>
              .error ("Invalid Will Message Expiration Interval, err:" ++ e)
            | .ok (d, r2) =>
              willPropsLoop f propLen remain
                { p with messageExpiryInterval := d } r2
          else if b = ContentType then
            match UTF8String.decode rest with
            | .error e => .error ("Invalid Will Content Type, err:" ++ e)
            | .ok (d, r2) =>
              willPropsLoop f propLen remain { p with contentType := d } r2
          else if b = ResponseTopic then
            match UTF8String.decode rest with
            | .error e => .error ("Invalid Response Topic, err:" ++ e)
            | .ok (d, r2) =>
              willPropsLoop f propLen remain { p with responseTopic := d } r2
          else if b = CorrelationData then
            match BinaryData.decode rest with
            | .error e => .error ("Invalid Correlation Data, err:" ++ e)
            | .ok (d, r2) =>
              willPropsLoop f propLen remain { p with correlationData := d } r2
          else if b = UserProperty then
            match UTF8StringPair.decode rest with
            | .error e => .error ("Invalid User Property, err:" ++ e)
            | .ok (d, r2) =>
              willPropsLoop f propLen remain { p with userProperty := d } r2
          else .error "Unknown connect will property"

def WillProperties.decode (r : Buf) :
    Except String (WillProperties × Buf) :=
  match VarByteInt.decode r with
  | .error _ => .error "Unable to decode will property length."
  | .ok (propLen, r1) =>
    if r1.len < propLen then .error "Invalid Will Properties Length."
    else if propLen = 0 then .ok (WillProperties.init, r1)
    else willPropsLoop (propLen + 1) propLen r1.len WillProperties.init r1

/-! Connect payload and request. -/

structure ConnectPayload where
  clientIdentifier : List Nat
  willProperties : WillProperties
  willTopic : List Nat
  willPayload : List Nat
  username : List Nat
  password : List Nat
deriving DecidableEq

def ConnectPayload.init : ConnectPayload :=
  { clientIdentifier := [], willProperties := WillProperties.init,
    willTopic := [], willPayload := [], username := [], password := [] }

def ConnectPayload.decode (f : Nat) (r : Buf) :
    Except String (ConnectPayload × Buf) :=
  match UTF8String.decode r with
  | .error e => .error e
  | .ok (cid, r1) =>
    let willStep :
        Except String ((WillProperties × List Nat × List Nat) × Buf) :=
      if ConnectFlag.will f then
        match WillProperties.decode r1 with
        | .error e => .error e
        | .ok (wp, r2) =>
          match UTF8String.decode r2 with
          | .error e => .error e
          | .ok (wt, r3) =>
            match BinaryData.decode r3 with
            | .error e => .error e
            | .ok (wpl, r4) => .ok ((wp, wt, wpl), r4)
      else .ok ((WillProperties.init, [], []), r1)
    match willStep with
    | .error e => .error e
    | .ok ((wp, wt, wpl), r4) =>
      let userStep : Except String (List Nat × Buf) :=
        if ConnectFlag.username f then UTF8String.decode r4 else .ok ([], r4)
      match userStep with
      | .error e => .error e
      | .ok (un, r5) =>
        let passStep : Except String (List Nat × Buf) :=
          if ConnectFlag.password f then BinaryData.decode r5 else .ok ([], r5)
        match passStep with
        | .error e => .error e
        | .ok (pw, r6) =>
          .ok ({ clientIdentifier := cid, willProperties := wp, willTopic := wt,
                 willPayload := wpl, username := un, password := pw }, r6)

structure ConnectRequest where
  flag : Nat
  keepAlive : Nat
  prop : ConnectProperties
  payload : ConnectPayload
deriving DecidableEq

def ParseConnect (_p : MqttHeader) (r : Buf) :
    Except String (ConnectRequest × Buf) :=
  match bufRead 6 r with
  | none => .error "Unsupported protocol!"
  | some (b, r1) =>
    if b ≠ [0, 4, 77, 81, 84, 84] then .error "Unsupported protocol!"
    else
      match bufRead 1 r1 with
      | none => .error "Unsupported protocol!"
      | some (bv, r2) =>
        if bv ≠ [5] then .error "Unsupported protocol!"
        else
          match bufRead 1 r2 with
          | none => .error "Missing flag value."
          | some (bf, r3) =>
            let flag := bf.getD 0 0
            match ConnectFlag.valid flag with
            | some e => .error e
            | none =>
              match bufRead 2 r3 with
              | none => .error "Missing keep alive value."
              | some (bk, r4) =>
                let keepAlive := bk.getD 0 0 * 256 + bk.getD 1 0
                match ConnectProperties.decode r4 with
                | .error e => .error e
                | .ok (prop, r5) =>
                  match ConnectPayload.decode flag r5 with
                  | .error e => .error e
                  | .ok (pl, r6) =>
                    .ok ({ flag := flag, keepAlive := keepAlive,
                           prop := prop, payload := pl }, r6)

/-! Reason codes and the CONNACK response builder. -/

def Success : Nat := 0
def MalformedPacket : Nat := 0x81
def ProtocolError : Nat := 0x82
def UnsupportedProtocolVersion : Nat := 0x84
def RetainNotSupported : Nat := 0x9A
def QoSNotSupported : Nat := 0x9B

/-- ConnackProperties.encode: property bytes paired with the reason
code.  The three always-true configuration guards in the source are
inlined.  The connect properties argument is accepted and unused, as
in the source. -/
def ConnackProperties.encode (flag : Nat) (_prop : ConnectProperties) :
    List Nat × Nat :=
  if ¬ QoS.isSupported (ConnectFlag.qos flag) then
    ([MaximumQoS] ++
      ByteInteger.encode (decide (QoS1 ≤ QoS.maxQos (ConnectFlag.qos flag))),
      QoSNotSupported)
  else
    let w := [RetainAvailable] ++ ByteInteger.encode false
    if ConnectFlag.retain flag then (w, RetainNotSupported)
    else
      (w ++ [WildcardSubscriptionAvailable] ++ ByteInteger.encode false ++
        [SubscriptionIdentifiersAvailable] ++ ByteInteger.encode false ++
        [SharedSubscriptionAvailable] ++ ByteInteger.encode false, Success)

/-- ConnectRequest.Response: the CONNACK body.  The session-present
guard is the source expression `!cleanstart() == false` (the session
store conjunct is commented out there); a non-Success reason code is
surfaced as the error the caller checks. -/
def ConnectRequest.Response (r : ConnectRequest) : Except String (List Nat) :=
  let ackFlag := if (!ConnectFlag.cleanstart r.flag) == false then [1] else [0]
  let pr := ConnackProperties.encode r.flag r.prop
  let w := ackFlag ++ [pr.2] ++ VarByteInt.encode pr.1.length ++ pr.1
  if pr.2 ≠ Success then .error "Unsupported Connect Propeties" else .ok w

def ConnectRequest.ResponseTo (r : ConnectRequest) : Except String (List Nat) :=
  match r.Response with
  | .error e => .error e
  | .ok body =>
    let header : MqttHeader :=
      { ctl := CONNACK, flag := { dup := false, qos := 0, retain := false },
        len := body.length }
    .ok (header.encode ++ body)

/-! Publish properties and request. -/

structure PublishProperties where
  fields : List Nat
  payloadFormatIndicator : Bool
  messageExpiryInterval : Nat
  topicAlias : Nat
  responseTopic : List Nat
  correlationData : List Nat
  userProperty : UTF8StringPair
  subscriptionIdentifier : Nat
  contentType : List Nat
deriving DecidableEq

def PublishProperties.init : PublishProperties :=
  { fields := [], payloadFormatIndicator := false, messageExpiryInterval := 0,
    topicAlias := 0, responseTopic := [], correlationData := [],
    userProperty := { key := [], value := [] }, subscriptionIdentifier := 0,
    contentType := [] }

/-- Loop body of PublishProperties.decode; the duplicate check and its
message are shared with the connect version in the source.  A zero
subscription identifier makes the source format a nil error, a
runtime fault; that branch carries the message prefix alone. -/
def publishPropsLoop : Nat → Nat → Nat → PublishProperties → Buf →
    Except String (PublishProperties × Buf)
  | fuel, propLen, remain, p, l =>
    if propLen ≤ remain - l.len then .ok (p, l)
    else
      match fuel with
      | 0 => .error "property loop stuck"
      | f + 1 =>
        match l.readByte with
        | none => .error "EOF"
        | some (b, rest) =>
          if p.fields.contains b then .error "Duplicate connect property"
          else
            let p := { p with fields := b :: p.fields }
            if b = PayloadFormatIndicator then
              match ByteInteger.decode rest with
              | .error e => .error ("Invalid Payload Format Indicator, err:" ++ e)
              | .ok (d, r2) =>
                publishPropsLoop f propLen remain
                  { p with payloadFormatIndicator := d } r2
            else if b = MessageExpiryInterval then
              match FourByteInteger.decode rest with
              | .error e =>
                .error ("Invalid Will Message Expiration Interval, err:" ++ e)
              | .ok (d, r2) =>
                publishPropsLoop f propLen remain
                  { p with messageExpiryInterval := d } r2
            else if b = TopicAlias then
              match TwoByteInteger.decode rest with
              | .error e => .error ("Invalid Topic Alias, err:" ++ e)
              | .ok (d, r2) =>
                publishPropsLoop f propLen remain { p with topicAlias := d } r2
            else if b = ResponseTopic then
              match UTF8String.decode rest with
              | .error e => .error ("Invalid Response Topic, err:" ++ e)
              | .ok (d, r2) =>
                publishPropsLoop f propLen remain { p with responseTopic := d } r2
            else if b = CorrelationData then
              match BinaryData.decode rest with
              | .error e => .error ("Invalid Correlation Data, err:" ++ e)
              | .ok (d, r2) =>
                publishPropsLoop f propLen remain
                  { p with correlationData := d } r2
            else if b = UserProperty then
              match UTF8StringPair.decode rest with
              | .error e => .error ("Invalid User Property, err:" ++ e)
              | .ok (d, r2) =>
                publishPropsLoop f propLen remain { p with userProperty := d } r2
            else if b = SubscriptionIdentifier then
              match VarByteInt.decode rest with
              | .error e => .error ("Invalid Subscription Identifier, err:" ++ e)
              | .ok (d, r2) =>
                if d = 0 then .error "Invalid Subscription Identifier, err:"
                else
                  publishPropsLoop f propLen remain
                    { p with subscriptionIdentifier := d } r2
            else if b = ContentType then
              match UTF8String.decode rest with
              | .error e => .error ("Invalid Will Content Type, err:" ++ e)
              | .ok (d, r2) =>
                publishPropsLoop f propLen remain { p with contentType := d } r2
            else .error "Unknown publish property"

def PublishProperties.decode (r : Buf) :
    Except String (PublishProperties × Buf) :=
  match VarByteInt.decode r with
  | .error _ => .error "Unable to decode publish property length."
  | .ok (propLen, r1) =>
    if r1.len < propLen then .error "Publish property must match set length."
    else if propLen = 0 then .ok (PublishProperties.init, r1)
    else publishPropsLoop (propLen + 1) propLen r1.len PublishProperties.init r1

structure PublishRequest where
  topic : List Nat
  packetId : Nat
  prop : PublishProperties
  pl : List Nat
deriving DecidableEq

def ParsePublish (h : MqttHeader) (r : Buf) :
    Except String (PublishRequest × Buf) :=
  match UTF8String.decode r with
  | .error e => .error ("Unable to parse public topic name, err:" ++ e)
  | .ok (topic, r1) =>
    let idStep : Except String (Nat × Buf) :=
      if QoS0 < h.flag.qos then TwoByteInteger.decode r1 else .ok (0, r1)
    match idStep with
    | .error e => .error e
    | .ok (pid, r2) =>
      match PublishProperties.decode r2 with
      | .error e => .error e
      | .ok (prop, r3) =>
        .ok ({ topic := topic, packetId := pid, prop := prop, pl := r3.bytes },
          r3.next r3.len)

/-! Request dispatch and the packet driver used by the protocol test. -/

inductive Request where
  | connect (r : ConnectRequest)
  | publish (r : PublishRequest)
deriving DecidableEq

def MqttHeader.ParseBody (h : MqttHeader) (r : Buf) :
    Except String (Request × Buf) :=
  if h.ctl = CONNECT then
    match ParseConnect h r with
    | .error e => .error e
    | .ok (req, rest) => .ok (.connect req, rest)
  else if h.ctl = PUBLISH then
    match ParsePublish h r with
    | .error e => .error e
    | .ok (req, rest) => .ok (.publish req, rest)
  else .error "Unsupported MQTT packet control"

/-- PublishRequest.ResponseTo writes nothing and reports no error. -/
def Request.ResponseTo : Request → Except String (List Nat)
  | .connect r => r.ResponseTo
  | .publish _ => .ok []

/-- parsePacket from the protocol test: ParseHeader then ParseBody on
the same buffer.  The `(none, _)` outcome of ParseHeader would be a
nil-header dereference in the source; it is mapped to an error here
and is not reached by any theorem below. -/
def parsePacket (l : List Nat) : Except String Request :=
  match ParseHeader (Buf.ofList l) with
  | .error e => .error e
  | .ok (none, _) => .error "nil header"
  | .ok (some h, rest) =>
    match h.ParseBody rest with
    | .error e => .error e
    | .ok (req, _) => .ok req

/-- Parse a packet and serialise its response, the round trip the
protocol test drives against the transport. -/
def handlePacket (r : List Nat) : Except String (List Nat) :=
  match parsePacket r with
  | .error e => .error e
  | .ok req => req.ResponseTo

/-! Concrete packets used by the theorems. -/

/-- The 40-byte CONNECT of the protocol test: client id testClient,
username testUser, session expiry 30, keep alive 30. -/
def connect40 : List Nat :=
  [0x10, 0x26, 0x00, 0x04, 0x4D, 0x51, 0x54, 0x54, 0x05, 0x80, 0x00, 0x1E,
   0x05, 0x11, 0x00, 0x00, 0x00, 0x1E, 0x00, 0x0A, 0x74, 0x65, 0x73, 0x74,
   0x43, 0x6C, 0x69, 0x65, 0x6E, 0x74, 0x00, 0x08, 0x74, 0x65, 0x73, 0x74,
   0x55, 0x73, 0x65, 0x72]

/-- A minimal CONNECT whose connect-flags byte 0x02 sets only the
clean-start bit: empty client id, no properties, no will, no
credentials. -/
def connectCleanStart : List Nat :=
  [0x10, 0x0D, 0x00, 0x04, 0x4D, 0x51, 0x54, 0x54, 0x05, 0x02, 0x00, 0x1E,
   0x00, 0x00, 0x00]

/-- A minimal CONNECT whose connect-flags byte 0x20 sets only bit 5,
the will-retain flag of the MQTT v5 connect-flag layout.  The source
reads bit 5 as the password flag, so the payload carries an empty
password after the empty client id. -/
def connectWillRetain : List Nat :=
  [0x10, 0x0F, 0x00, 0x04, 0x4D, 0x51, 0x54, 0x54, 0x05, 0x20, 0x00, 0x1E,
   0x00, 0x00, 0x00, 0x00, 0x00]

end Goker

namespace Goker

/-! Theorems settling the claims. -/

set_option maxHeartbeats 2000000 in
/-- Claim C1: the 40-byte CONNECT test packet parses through the fixed
header and body, and the serialised CONNACK is exactly 20 0B 00
(CONNACK, remaining length 11, session present 0), then reason code 00
(Success), then the property block 08 25 00 28 00 29 00 2A 00 carrying
the four disabled capabilities, each with value 0. -/
theorem connect40_handshake :
    handlePacket connect40 =
      .ok [0x20, 0x0B, 0x00, 0x00, 0x08, 0x25, 0x00, 0x28, 0x00, 0x29, 0x00,
           0x2A, 0x00] := by
  rfl

set_option maxHeartbeats 1000000 in
/-- Claim C2 fails on the code: the session-present guard
`!cleanstart() == false` evaluates to the clean-start bit itself, so a
parsed CONNECT with clean-start set is answered with session-present 1,
not the unconditional 0 the claim states.  The packet here differs from
a Success handshake only in its flags byte 0x02. -/
theorem connack_session_present_follows_cleanstart :
    handlePacket connectCleanStart =
      .ok [0x20, 0x0B, 0x01, 0x00, 0x08, 0x25, 0x00, 0x28, 0x00, 0x29, 0x00,
           0x2A, 0x00] := by
  rfl

/-- Claim C3 fails on the code at flags byte 0x0C: reserved bit clear,
will flag set, will-qos field 1, so the claim accepts it, but the
unshifted qos mask makes qos() return 8, which the `qos() >= QoS3`
comparison rejects as Invalid QoS. -/
theorem connectFlag_will_qos1_rejected :
    ConnectFlag.valid 0x0C = some "Invalid QoS" ∧
      0x0C &&& 0b1 = 0 ∧ (0x0C >>> 3) &&& 0b11 = 1 ∧ 0x0C &&& 0b100 = 4 := by
  exact ⟨rfl, rfl, rfl, rfl⟩

/-- Claim C4 fails on the code: the encoder overwrites its single
output byte every pass instead of appending, so only the final 7-bit
group survives.  encode 128 yields the single byte 01, which decodes
to 1, not 128; and encode 0 yields no bytes at all, which the decoder
rejects.  The claimed round trip and minimal length fail. -/
theorem vbi_encode_drops_leading_groups :
    VarByteInt.encode 128 = [1] ∧
      VarByteInt.decode (Buf.ofList [1]) = .ok (1, { data := [1], off := 1 }) ∧
      VarByteInt.encode 0 = [] := by
  exact ⟨rfl, rfl, rfl⟩

/-- Claim C5 as stated is false: the duplicate test of the property
decoders does not exempt the user property 0x26.  A connect block of
declared length 10 holding two user properties with empty key and
value is rejected with the duplicate error instead of consuming both
occurrences. -/
theorem connect_dup_user_property_rejected :
    ConnectProperties.decode (Buf.ofList [10, 0x26, 0, 0, 0, 0, 0x26, 0, 0, 0, 0]) =
      .error "Duplicate connect property" := by
  rfl

/-- Claim C5 amended: both property decoders reject every identifier
that appears twice in one block, the user property included.  Each
conjunct doubles one permitted identifier with a minimal valid value:
the nine connect identifiers, then the eight publish identifiers. -/
theorem property_block_rejects_all_duplicates :
    ConnectProperties.decode (Buf.ofList [10, 17, 0, 0, 0, 0, 17, 0, 0, 0, 0]) =
        .error "Duplicate connect property" ∧
      ConnectProperties.decode (Buf.ofList [6, 33, 0, 0, 33, 0, 0]) =
        .error "Duplicate connect property" ∧
      ConnectProperties.decode (Buf.ofList [10, 39, 0, 0, 0, 0, 39, 0, 0, 0, 0]) =
        .error "Duplicate connect property" ∧
      ConnectProperties.decode (Buf.ofList [6, 34, 0, 0, 34, 0, 0]) =
        .error "Duplicate connect property" ∧
      ConnectProperties.decode (Buf.ofList [4, 25, 0, 25, 0]) =
        .error "Duplicate connect property" ∧
      ConnectProperties.decode (Buf.ofList [4, 23, 0, 23, 0]) =
        .error "Duplicate connect property" ∧
      ConnectProperties.decode (Buf.ofList [10, 38, 0, 0, 0, 0, 38, 0, 0, 0, 0]) =
        .error "Duplicate connect property" ∧
      ConnectProperties.decode (Buf.ofList [6, 21, 0, 0, 21, 0, 0]) =
        .error "Duplicate connect property" ∧
      ConnectProperties.decode (Buf.ofList [6, 22, 0, 0, 22, 0, 0]) =
        .error "Duplicate connect property" ∧
      PublishProperties.decode (Buf.ofList [4, 1, 0, 1, 0]) =
        .error "Duplicate connect property" ∧
      PublishProperties.decode (Buf.ofList [10, 2, 0, 0, 0, 0, 2, 0, 0, 0, 0]) =
        .error "Duplicate connect property" ∧
      PublishProperties.decode (Buf.ofList [6, 35, 0, 0, 35, 0, 0]) =
        .error "Duplicate connect property" ∧
      PublishProperties.decode (Buf.ofList [6, 8, 0, 0, 8, 0, 0]) =
        .error "Duplicate connect property" ∧
      PublishProperties.decode (Buf.ofList [6, 9, 0, 0, 9, 0, 0]) =
        .error "Duplicate connect property" ∧
      PublishProperties.decode (Buf.ofList [10, 38, 0, 0, 0, 0, 38, 0, 0, 0, 0]) =
        .error "Duplicate connect property" ∧
      PublishProperties.decode (Buf.ofList [4, 11, 1, 11, 1]) =
        .error "Duplicate connect property" ∧
      PublishProperties.decode (Buf.ofList [6, 3, 0, 0, 3, 0, 0]) =
        .error "Duplicate connect property" := by
  exact ⟨rfl, rfl, rfl, rfl, rfl, rfl, rfl, rfl, rfl, rfl, rfl, rfl, rfl,
    rfl, rfl, rfl, rfl⟩

/-- Claim C6 fails on the code: a connect property block that declares
length 2 but opens with the session-expiry identifier is decoded
successfully after consuming five block bytes — the whole six-byte
buffer, as the final offset 6 shows — because the four-byte value read
runs past the declared boundary and the loop guard only detects that
the count is no longer below the length.  The second conjunct pins the
declared length of this input to 2. -/
theorem connect_props_consume_past_declared_length :
    ConnectProperties.decode (Buf.ofList [2, 17, 0, 0, 0, 0]) =
        .ok ({ ConnectProperties.init with fields := [17] },
          { data := [2, 17, 0, 0, 0, 0], off := 6 }) ∧
      VarByteInt.decode (Buf.ofList [2, 17, 0, 0, 0, 0]) =
        .ok (2, { data := [2, 17, 0, 0, 0, 0], off := 1 }) := by
  exact ⟨rfl, rfl⟩

set_option maxHeartbeats 1000000 in
/-- Claim C7 fails on the code: a parsed CONNECT whose flags byte 0x20
sets the will-retain bit of the MQTT layout (bit 5) is answered with
reason code 00 Success, not 9A RetainNotSupported, because retain()
masks bit 4 — a will-qos bit that the preceding qos check already
forces to zero — so the RetainNotSupported branch is unreachable. -/
theorem connack_will_retain_gets_success :
    handlePacket connectWillRetain =
      .ok [0x20, 0x0B, 0x00, 0x00, 0x08, 0x25, 0x00, 0x28, 0x00, 0x29, 0x00,
           0x2A, 0x00] ∧
      (0x20 >>> 5) &&& 1 = 1 := by
  exact ⟨rfl, rfl⟩

/-- Claim C8 fails on the code: the byte-boolean guard is `b[0] >= 1`
rather than `> 1`, so the byte 0x01 is rejected although the claim
(and the paired encoder, which emits 1 for true) requires it to decode
to true; only 0x00 decodes. -/
theorem byteInteger_decode_rejects_one :
    ByteInteger.decode (Buf.ofList [1]) = .error "Unable to decode Byte Integer." ∧
      ByteInteger.decode (Buf.ofList [0]) = .ok (false, { data := [0], off := 1 }) ∧
      ByteInteger.encode true = [1] := by
  exact ⟨rfl, rfl, rfl⟩

/-- Claim C9 as stated is false: a connect property block holding the
request-response-information identifier 0x19 with value 1 does not
decode successfully — the misdirected store runs through the
byte-boolean decoder, which rejects the byte 1 — so the whole decode
fails. -/
theorem connect_rri_one_fails :
    ConnectProperties.decode (Buf.ofList [2, 25, 1]) =
      .error "Invalid Request Response Information, err:Unable to decode Byte Integer." := by
  rfl

/-- Claim C9 amended: with value 0 the misdirected store is observable.
The block decodes, requestResponseInfo keeps its default false, and the
decoded value lands in requestProblemInfo, flipping that field from its
default true to false. -/
theorem connect_rri_zero_stored_in_rpi :
    ConnectProperties.decode (Buf.ofList [2, 25, 0]) =
        .ok ({ ConnectProperties.init with
                fields := [25]
                requestProblemInfo := false },
          { data := [2, 25, 0], off := 3 }) ∧
      ConnectProperties.init.requestProblemInfo = true := by
  exact ⟨rfl, rfl⟩

/-- Claim C10 fails on the code: a binary-data field declaring length 2
over a buffer holding a single data byte decodes without error, because
bytes.Buffer.Read reports EOF only on an empty buffer; the partial read
leaves the zero-padded value AA 00. -/
theorem binaryData_decode_zero_pads_short_input :
    BinaryData.decode (Buf.ofList [0x00, 0x02, 0xAA]) =
      .ok ([0xAA, 0x00], { data := [0x00, 0x02, 0xAA], off := 3 }) := by
  rfl

end Goker
